import Mathlib

/-!
Shallow embedding of the thesis experiment engine (src/src/experiment.rs).

An `Experiment` composes a control computation, an experimental computation,
a rollout strategy (decision protocol) and a mismatch handler (reconciliation
policy).  `run` is the plain-output entry point, `run_result` the fallible
one.  Deferred computations are embedded as a final value together with the
list of side effects that executing the computation produces; executions
return the final value paired with the ordered trace of instrumentation
events (counters, durations, outcome classifications) and of the side
effects of every computation that was actually driven to completion, so that
"a computation was never started" is visible as the absence of its effects
in the trace.  `tokio::join!` runs both computations to completion; the
trace fixes the control-then-experimental interleaving of their events,
which no claim depends on.
-/

deriving instance DecidableEq for Except

namespace Thesis

/-- The three-way rollout decision (src/src/experiment.rs matches exactly the
three variants UseControl, UseExperimentalAndCompare, UseExperimental of
crate::rollout::RolloutDecision). -/
inductive RolloutDecision where
  | useControl
  | useExperimentalAndCompare
  | useExperimental
deriving DecidableEq

/-- A deferred computation: the value it resolves to and the side effects
that happen if (and only if) it is driven to completion. -/
structure Computation (T E : Type) where
  value : T
  effects : List E
deriving DecidableEq

/-- The pair of observed outcomes handed to the mismatch handler
(crate::mismatch::Mismatch, constructed literally in src/src/experiment.rs). -/
structure Mismatch (T : Type) where
  control : T
  experimental : T
deriving DecidableEq

/-- One entry of the observable trace of an execution: the metrics events the
engine emits and the side effects of the computations it actually runs.
A directly recorded (decisionQuery / handlerCall) entry marks the single
point where the rollout strategy, resp. the mismatch handler, is invoked. -/
inductive Event (T E : Type) where
  | runTotal (name : String)
  | decisionQuery (d : RolloutDecision)
  | runVariant (name kind : String)
  | duration (name kind : String)
  | outcomeCount (name kind out : String)
  | outcomeMismatch (name : String)
  | effect (e : E)
  | handlerCall (m : Mismatch T)
deriving DecidableEq

/-- measure_duration: drive the future to completion (its side effects
happen), then record one duration histogram sample for the given kind. -/
def measure_duration {T E : Type} (name kind : String) (c : Computation T E) :
    T × List (Event T E) :=
  (c.value, c.effects.map Event.effect ++ [Event.duration name kind])

/-- instrument_control: run the control future inside its span, recording its
duration under kind "control". -/
def instrument_control {T E : Type} (name : String) (c : Computation T E) :
    T × List (Event T E) :=
  measure_duration name "control" c

/-- instrument_experimental: run the experimental future inside its span,
recording its duration under kind "experimental". -/
def instrument_experimental {T E : Type} (name : String) (c : Computation T E) :
    T × List (Event T E) :=
  measure_duration name "experimental" c

/-- outcome_ok: the thesis_experiment_outcome counter with outcome "ok". -/
def outcome_ok {T E : Type} (name kind : String) : Event T E :=
  Event.outcomeCount name kind "ok"

/-- outcome_error: the thesis_experiment_outcome counter with outcome
"error". -/
def outcome_error {T E : Type} (name kind : String) : Event T E :=
  Event.outcomeCount name kind "error"

/-- outcome_mismatch: the thesis_experiment_outcome counter with kind
"experimental_and_compare" and outcome "mismatch". -/
def outcome_mismatch {T E : Type} (name : String) : Event T E :=
  Event.outcomeMismatch name

/-- outcome: classify a fallible result as ok or error and emit the matching
outcome counter event. -/
def outcome {A Err E : Type} (name kind : String) (r : Except Err A) :
    Event (Except Err A) E :=
  match r with
  | .ok _ => outcome_ok name kind
  | .error _ => outcome_error name kind

/-- A fully configured experiment: the complete instantiation of the Rust
type-state builder (control and experimental futures present, rollout
strategy present, mismatch handler present).  The rollout strategy is
embedded as the decision it returns and the mismatch handler as the function
its on_mismatch method computes. -/
structure Experiment (T E : Type) where
  name : String
  control_builder : Computation T E
  experimental_builder : Computation T E
  rollout_strategy : RolloutDecision
  mismatch_handler : Mismatch T → T

/-- Experiment::run, plain mode: count the invocation, query the rollout
strategy once, then run the selected path(s); under
useExperimentalAndCompare run both, compare for equality and on disagreement
delegate to the mismatch handler. -/
def Experiment.run {T E : Type} [DecidableEq T] (ex : Experiment T E) :
    T × List (Event T E) :=
  let pre : List (Event T E) :=
    [Event.runTotal ex.name, Event.decisionQuery ex.rollout_strategy]
  match ex.rollout_strategy with
  | .useControl =>
      let r := instrument_control ex.name ex.control_builder
      (r.1, pre ++ [Event.runVariant ex.name "control"] ++ r.2)
  | .useExperimentalAndCompare =>
      let rc := instrument_control ex.name ex.control_builder
      let re := instrument_experimental ex.name ex.experimental_builder
      let base := pre ++ [Event.runVariant ex.name "experimental_and_compare"]
        ++ rc.2 ++ re.2
      if rc.1 ≠ re.1 then
        let m : Mismatch T := ⟨rc.1, re.1⟩
        (ex.mismatch_handler m,
          base ++ [outcome_mismatch ex.name, Event.handlerCall m])
      else
        (rc.1, base)
  | .useExperimental =>
      let r := instrument_experimental ex.name ex.experimental_builder
      (r.1, pre ++ [Event.runVariant ex.name "experimental"] ++ r.2)

/-- Experiment::run_result, fallible mode: like run but every executed side
is classified ok/error, and under useExperimentalAndCompare the final result
follows the asymmetric reconciliation match of the source. -/
def Experiment.run_result {A Err E : Type} [DecidableEq A]
    (ex : Experiment (Except Err A) E) :
    Except Err A × List (Event (Except Err A) E) :=
  let pre : List (Event (Except Err A) E) :=
    [Event.runTotal ex.name, Event.decisionQuery ex.rollout_strategy]
  match ex.rollout_strategy with
  | .useControl =>
      let r := instrument_control ex.name ex.control_builder
      (r.1, pre ++ [Event.runVariant ex.name "control"] ++ r.2
        ++ [outcome ex.name "control" r.1])
  | .useExperimentalAndCompare =>
      let rc := instrument_control ex.name ex.control_builder
      let re := instrument_experimental ex.name ex.experimental_builder
      let base := pre ++ [Event.runVariant ex.name "experimental_and_compare"]
        ++ rc.2 ++ re.2
        ++ [outcome ex.name "control" rc.1, outcome ex.name "experimental" re.1]
      match rc.1, re.1 with
      | .ok control, .ok experimental =>
          if control ≠ experimental then
            let m : Mismatch (Except Err A) := ⟨.ok control, .ok experimental⟩
            (ex.mismatch_handler m,
              base ++ [outcome_mismatch ex.name, Event.handlerCall m])
          else
            (.ok control, base)
      | .ok control, .error _ =>
          (.ok control, base ++ [outcome_mismatch ex.name])
      | .error control, .ok experimental =>
          let m : Mismatch (Except Err A) := ⟨.error control, .ok experimental⟩
          (ex.mismatch_handler m,
            base ++ [outcome_mismatch ex.name, Event.handlerCall m])
      | .error control, .error _ =>
          (.error control, base)
  | .useExperimental =>
      let r := instrument_experimental ex.name ex.experimental_builder
      (r.1, pre ++ [Event.runVariant ex.name "experimental"] ++ r.2
        ++ [outcome ex.name "experimental" r.1])

/-- The mismatch-handler invocations recorded in a trace, in order, each with
the Mismatch value it received. -/
def handlerCallOf {T E : Type} : Event T E → Option (Mismatch T)
  | .handlerCall m => some m
  | _ => none

def handlerCalls {T E : Type} (tr : List (Event T E)) : List (Mismatch T) :=
  tr.filterMap handlerCallOf

/-- The rollout-strategy queries recorded in a trace, in order. -/
def queryOf {T E : Type} : Event T E → Option RolloutDecision
  | .decisionQuery d => some d
  | _ => none

def queryEvents {T E : Type} (tr : List (Event T E)) : List RolloutDecision :=
  tr.filterMap queryOf

/-- The variant-selected counter events of a trace: (name, kind) pairs. -/
def variantOf {T E : Type} : Event T E → Option (String × String)
  | .runVariant name kind => some (name, kind)
  | _ => none

def variantEvents {T E : Type} (tr : List (Event T E)) : List (String × String) :=
  tr.filterMap variantOf

/-- The outcome classification counter events of a trace:
(name, kind, outcome) triples. -/
def outcomeOf {T E : Type} : Event T E → Option (String × String × String)
  | .outcomeCount name kind out => some (name, kind, out)
  | _ => none

def outcomeEvents {T E : Type} (tr : List (Event T E)) :
    List (String × String × String) :=
  tr.filterMap outcomeOf

/-- The mismatch counter events of a trace (the tagged experiment names). -/
def mismatchOf {T E : Type} : Event T E → Option String
  | .outcomeMismatch name => some name
  | _ => none

def mismatchEvents {T E : Type} (tr : List (Event T E)) : List String :=
  tr.filterMap mismatchOf

/-- The side effects of computations that actually ran, in trace order. -/
def effectOf {T E : Type} : Event T E → Option E
  | .effect e => some e
  | _ => none

def compEffects {T E : Type} (tr : List (Event T E)) : List E :=
  tr.filterMap effectOf

/-- Modelled from the spec: crate::mismatch::AlwaysControl is not under src/
(only its use as the default in Experiment::new is); the spec says a default
policy "that always returns the control value must be used", matching the
src doc comment "The only provided default is accepting the control value in
the mismatch handler". -/
def AlwaysControl {T : Type} : Mismatch T → T :=
  fun m => m.control

/-- A builder slot of the Rust type-state: the type index records whether
the field has been supplied (Unit when absent, the payload type when
present). -/
inductive Slot (α : Type) : Bool → Type where
  | vacant : Slot α false
  | filled (a : α) : Slot α true

def Slot.get {α : Type} : Slot α true → α
  | .filled a => a

/-- The Rust Experiment generic over its configuration state: the Boolean
indices mirror whether the control future, the experimental future and the
rollout strategy have been registered (in Rust the field types themselves
change from () to the supplied type; run is only provided where all three
are present). -/
structure ExperimentBuilder (T E : Type) (hc he hr : Bool) where
  name : String
  control_slot : Slot (Computation T E) hc
  experimental_slot : Slot (Computation T E) he
  rollout_slot : Slot RolloutDecision hr
  handler : Mismatch T → T

/-- Experiment::new: only the name is supplied; no control, no experimental,
no rollout strategy, and the AlwaysControl default mismatch handler. -/
def ExperimentBuilder.new (T E : Type) (name : String) :
    ExperimentBuilder T E false false false :=
  ⟨name, Slot.vacant, Slot.vacant, Slot.vacant, AlwaysControl⟩

/-- Experiment::control: register the control future. -/
def ExperimentBuilder.control {T E : Type} {hc he hr : Bool}
    (b : ExperimentBuilder T E hc he hr) (c : Computation T E) :
    ExperimentBuilder T E true he hr :=
  ⟨b.name, Slot.filled c, b.experimental_slot, b.rollout_slot, b.handler⟩

/-- Experiment::experimental: register the experimental future. -/
def ExperimentBuilder.experimental {T E : Type} {hc he hr : Bool}
    (b : ExperimentBuilder T E hc he hr) (c : Computation T E) :
    ExperimentBuilder T E hc true hr :=
  ⟨b.name, b.control_slot, Slot.filled c, b.rollout_slot, b.handler⟩

/-- Experiment::rollout_strategy: register the rollout strategy. -/
def ExperimentBuilder.rollout_strategy {T E : Type} {hc he hr : Bool}
    (b : ExperimentBuilder T E hc he hr) (r : RolloutDecision) :
    ExperimentBuilder T E hc he true :=
  ⟨b.name, b.control_slot, b.experimental_slot, Slot.filled r, b.handler⟩

/-- Experiment::on_mismatch: replace the mismatch handler (does not change
which mandatory fields are present). -/
def ExperimentBuilder.on_mismatch {T E : Type} {hc he hr : Bool}
    (b : ExperimentBuilder T E hc he hr) (f : Mismatch T → T) :
    ExperimentBuilder T E hc he hr :=
  ⟨b.name, b.control_slot, b.experimental_slot, b.rollout_slot, f⟩

/-- Only a fully supplied builder yields a runnable Experiment: this is the
sole way into the type on which run and run_result are defined, so an
incompletely configured builder exposes no execution entry point. -/
def ExperimentBuilder.toExperiment {T E : Type}
    (b : ExperimentBuilder T E true true true) : Experiment T E :=
  ⟨b.name, b.control_slot.get, b.experimental_slot.get, b.rollout_slot.get,
    b.handler⟩

/-- One builder-method call together with its argument. -/
inductive BuilderCall (T E : Type) where
  | control (c : Computation T E)
  | experimental (c : Computation T E)
  | rollout_strategy (r : RolloutDecision)
  | on_mismatch (f : Mismatch T → T)

def BuilderCall.isControl {T E : Type} : BuilderCall T E → Bool
  | .control _ => true
  | _ => false

def BuilderCall.isExperimental {T E : Type} : BuilderCall T E → Bool
  | .experimental _ => true
  | _ => false

def BuilderCall.isRollout {T E : Type} : BuilderCall T E → Bool
  | .rollout_strategy _ => true
  | _ => false

/-- A builder in an arbitrary configuration state, its state packed up so
that chains of builder calls can be applied uniformly. -/
def PackedBuilder (T E : Type) : Type :=
  Σ hc : Bool, Σ he : Bool, Σ hr : Bool, ExperimentBuilder T E hc he hr

def packed_new (T E : Type) (name : String) : PackedBuilder T E :=
  ⟨false, false, false, ExperimentBuilder.new T E name⟩

def applyCall {T E : Type} : PackedBuilder T E → BuilderCall T E → PackedBuilder T E
  | ⟨_, he, hr, b⟩, .control c => ⟨true, he, hr, b.control c⟩
  | ⟨hc, _, hr, b⟩, .experimental c => ⟨hc, true, hr, b.experimental c⟩
  | ⟨hc, he, _, b⟩, .rollout_strategy r => ⟨hc, he, true, b.rollout_strategy r⟩
  | ⟨hc, he, hr, b⟩, .on_mismatch f => ⟨hc, he, hr, b.on_mismatch f⟩

def applyCalls {T E : Type} (p : PackedBuilder T E)
    (calls : List (BuilderCall T E)) : PackedBuilder T E :=
  calls.foldl applyCall p

/-- The configuration state a packed builder has reached: whether control,
experimental and rollout strategy are present. -/
def flags {T E : Type} : PackedBuilder T E → Bool × Bool × Bool
  | ⟨hc, he, hr, _⟩ => (hc, he, hr)

/-- The classified-outcome pairs for which the fallible reconciliation match
of run_result delegates to the mismatch handler: both sides succeed with
unequal values, or the control fails while the experimental succeeds. -/
def needsReconciliation {A Err : Type} [DecidableEq A] :
    Except Err A → Except Err A → Bool
  | .ok a, .ok b => a ≠ b
  | .error _, .ok _ => true
  | _, _ => false

/-- The kind tag string the variant-selected counter carries for each
decision. -/
def RolloutDecision.kindLabel : RolloutDecision → String
  | .useControl => "control"
  | .useExperimentalAndCompare => "experimental_and_compare"
  | .useExperimental => "experimental"

/-- A trace that opens with the invocation counter for the given experiment
name, immediately followed by the single rollout-strategy query producing
the given decision, with no further query anywhere in the rest. -/
def startsWithQuery {T E : Type} (name : String) (d : RolloutDecision) :
    List (Event T E) → Prop
  | .runTotal n :: .decisionQuery q :: rest =>
      n = name ∧ q = d ∧ queryEvents rest = []
  | _ => False

/-! ### Helper lemmas about trace extraction -/

@[simp]
theorem handlerCallOf_outcome {A Err E : Type} (name kind : String)
    (r : Except Err A) : handlerCallOf (E := E) (outcome name kind r) = none := by
  cases r <;> rfl

@[simp]
theorem queryOf_outcome {A Err E : Type} (name kind : String)
    (r : Except Err A) : queryOf (E := E) (outcome name kind r) = none := by
  cases r <;> rfl

@[simp]
theorem variantOf_outcome {A Err E : Type} (name kind : String)
    (r : Except Err A) : variantOf (E := E) (outcome name kind r) = none := by
  cases r <;> rfl

@[simp]
theorem mismatchOf_outcome {A Err E : Type} (name kind : String)
    (r : Except Err A) : mismatchOf (E := E) (outcome name kind r) = none := by
  cases r <;> rfl

@[simp]
theorem effectOf_outcome {A Err E : Type} (name kind : String)
    (r : Except Err A) : effectOf (E := E) (outcome name kind r) = none := by
  cases r <;> rfl

@[simp]
theorem handlerCalls_append {T E : Type} (xs ys : List (Event T E)) :
    handlerCalls (xs ++ ys) = handlerCalls xs ++ handlerCalls ys :=
  List.filterMap_append xs ys handlerCallOf

@[simp]
theorem handlerCalls_effects {T E : Type} (l : List E) :
    List.filterMap (handlerCallOf (T := T) ∘ Event.effect) l = [] := by
  induction l with
  | nil => rfl
  | cons a l ih => simp [handlerCallOf, Function.comp, ih]

@[simp]
theorem queryEvents_append {T E : Type} (xs ys : List (Event T E)) :
    queryEvents (xs ++ ys) = queryEvents xs ++ queryEvents ys :=
  List.filterMap_append xs ys queryOf

@[simp]
theorem queryEvents_effects {T E : Type} (l : List E) :
    List.filterMap (queryOf (T := T) ∘ Event.effect) l = [] := by
  induction l with
  | nil => rfl
  | cons a l ih => simp [queryOf, Function.comp, ih]

@[simp]
theorem variantEvents_append {T E : Type} (xs ys : List (Event T E)) :
    variantEvents (xs ++ ys) = variantEvents xs ++ variantEvents ys :=
  List.filterMap_append xs ys variantOf

@[simp]
theorem variantEvents_effects {T E : Type} (l : List E) :
    List.filterMap (variantOf (T := T) ∘ Event.effect) l = [] := by
  induction l with
  | nil => rfl
  | cons a l ih => simp [variantOf, Function.comp, ih]

@[simp]
theorem outcomeEvents_append {T E : Type} (xs ys : List (Event T E)) :
    outcomeEvents (xs ++ ys) = outcomeEvents xs ++ outcomeEvents ys :=
  List.filterMap_append xs ys outcomeOf

@[simp]
theorem outcomeEvents_effects {T E : Type} (l : List E) :
    List.filterMap (outcomeOf (T := T) ∘ Event.effect) l = [] := by
  induction l with
  | nil => rfl
  | cons a l ih => simp [outcomeOf, Function.comp, ih]

@[simp]
theorem mismatchEvents_append {T E : Type} (xs ys : List (Event T E)) :
    mismatchEvents (xs ++ ys) = mismatchEvents xs ++ mismatchEvents ys :=
  List.filterMap_append xs ys mismatchOf

@[simp]
theorem mismatchEvents_effects {T E : Type} (l : List E) :
    List.filterMap (mismatchOf (T := T) ∘ Event.effect) l = [] := by
  induction l with
  | nil => rfl
  | cons a l ih => simp [mismatchOf, Function.comp, ih]

@[simp]
theorem compEffects_append {T E : Type} (xs ys : List (Event T E)) :
    compEffects (xs ++ ys) = compEffects xs ++ compEffects ys :=
  List.filterMap_append xs ys effectOf

@[simp]
theorem compEffects_effects {T E : Type} (l : List E) :
    List.filterMap (effectOf (T := T) ∘ Event.effect) l = l := by
  induction l with
  | nil => rfl
  | cons a l ih => simp [effectOf, Function.comp, ih]

/-- C2: For every invocation of run (plain mode) whose decision is
Use-Both-And-Compare: if the control and experimental outputs are equal, the
Reconciliation Policy is never invoked and the control value is returned; if
they are unequal, the Reconciliation Policy is invoked exactly once with
both values and its return value is the final result. -/
theorem run_compare_reconciliation {T E : Type} [DecidableEq T]
    (name : String) (cb eb : Computation T E) (mh : Mismatch T → T) :
    ((Experiment.run ⟨name, cb, eb, RolloutDecision.useExperimentalAndCompare, mh⟩).1 =
        if cb.value = eb.value then cb.value else mh ⟨cb.value, eb.value⟩) ∧
    (handlerCalls (Experiment.run
        ⟨name, cb, eb, RolloutDecision.useExperimentalAndCompare, mh⟩).2 =
        if cb.value = eb.value then [] else [⟨cb.value, eb.value⟩]) := by
  by_cases h : cb.value = eb.value <;>
    simp [Experiment.run, instrument_control, instrument_experimental,
      measure_duration, handlerCalls, handlerCallOf, outcome_mismatch, h]

/-- C1: For every invocation of run_result whose decision is
Use-Both-And-Compare, the final result follows the fallible reconciliation
table: both succeed equal → success(control), no reconciliation call; both
succeed unequal → policy invoked with both successes, its return is the
result; control succeeds, experimental fails → success(control), policy not
invoked; control fails, experimental succeeds → policy invoked with
{failure(control), success(experimental)}, its return is the result; both
fail → the control failure, the experimental failure discarded. -/
theorem run_result_reconciliation_table {A Err E : Type} [DecidableEq A]
    (name : String) (cb eb : Computation (Except Err A) E)
    (mh : Mismatch (Except Err A) → Except Err A) :
    (∀ a b, cb.value = .ok a → eb.value = .ok b → a = b →
      (Experiment.run_result
          ⟨name, cb, eb, RolloutDecision.useExperimentalAndCompare, mh⟩).1 = .ok a ∧
      handlerCalls (Experiment.run_result
          ⟨name, cb, eb, RolloutDecision.useExperimentalAndCompare, mh⟩).2 = []) ∧
    (∀ a b, cb.value = .ok a → eb.value = .ok b → a ≠ b →
      (Experiment.run_result
          ⟨name, cb, eb, RolloutDecision.useExperimentalAndCompare, mh⟩).1 =
        mh ⟨.ok a, .ok b⟩ ∧
      handlerCalls (Experiment.run_result
          ⟨name, cb, eb, RolloutDecision.useExperimentalAndCompare, mh⟩).2 =
        [⟨.ok a, .ok b⟩]) ∧
    (∀ a err, cb.value = .ok a → eb.value = .error err →
      (Experiment.run_result
          ⟨name, cb, eb, RolloutDecision.useExperimentalAndCompare, mh⟩).1 = .ok a ∧
      handlerCalls (Experiment.run_result
          ⟨name, cb, eb, RolloutDecision.useExperimentalAndCompare, mh⟩).2 = []) ∧
    (∀ err b, cb.value = .error err → eb.value = .ok b →
      (Experiment.run_result
          ⟨name, cb, eb, RolloutDecision.useExperimentalAndCompare, mh⟩).1 =
        mh ⟨.error err, .ok b⟩ ∧
      handlerCalls (Experiment.run_result
          ⟨name, cb, eb, RolloutDecision.useExperimentalAndCompare, mh⟩).2 =
        [⟨.error err, .ok b⟩]) ∧
    (∀ errc erre, cb.value = .error errc → eb.value = .error erre →
      (Experiment.run_result
          ⟨name, cb, eb, RolloutDecision.useExperimentalAndCompare, mh⟩).1 =
        .error errc ∧
      handlerCalls (Experiment.run_result
          ⟨name, cb, eb, RolloutDecision.useExperimentalAndCompare, mh⟩).2 = []) := by
  refine ⟨?_, ?_, ?_, ?_, ?_⟩
  · intro a b h1 h2 h3
    simp [Experiment.run_result, instrument_control, instrument_experimental,
      measure_duration, handlerCalls, handlerCallOf, outcome, outcome_ok,
      outcome_error, outcome_mismatch, h1, h2, h3]
  · intro a b h1 h2 h3
    simp [Experiment.run_result, instrument_control, instrument_experimental,
      measure_duration, handlerCalls, handlerCallOf, outcome, outcome_ok,
      outcome_error, outcome_mismatch, h1, h2, h3]
  · intro a err h1 h2
    simp [Experiment.run_result, instrument_control, instrument_experimental,
      measure_duration, handlerCalls, handlerCallOf, outcome, outcome_ok,
      outcome_error, outcome_mismatch, h1, h2]
  · intro err b h1 h2
    simp [Experiment.run_result, instrument_control, instrument_experimental,
      measure_duration, handlerCalls, handlerCallOf, outcome, outcome_ok,
      outcome_error, outcome_mismatch, h1, h2]
  · intro errc erre h1 h2
    simp [Experiment.run_result, instrument_control, instrument_experimental,
      measure_duration, handlerCalls, handlerCallOf, outcome, outcome_ok,
      outcome_error, outcome_mismatch, h1, h2]

/-- C4: For every execution whose decision is Use-Control, the experimental
computation is never started and none of its side effects occur;
symmetrically for Use-Experimental and the control computation; for both
run and run_result.  The side effects appearing in the trace are exactly
those of the selected computation. -/
theorem unselected_path_never_starts {T A Err E : Type} [DecidableEq T]
    [DecidableEq A] (name : String) (cb eb : Computation T E)
    (mh : Mismatch T → T) (cbr ebr : Computation (Except Err A) E)
    (mhr : Mismatch (Except Err A) → Except Err A) :
    compEffects (Experiment.run
        ⟨name, cb, eb, RolloutDecision.useControl, mh⟩).2 = cb.effects ∧
    compEffects (Experiment.run
        ⟨name, cb, eb, RolloutDecision.useExperimental, mh⟩).2 = eb.effects ∧
    compEffects (Experiment.run_result
        ⟨name, cbr, ebr, RolloutDecision.useControl, mhr⟩).2 = cbr.effects ∧
    compEffects (Experiment.run_result
        ⟨name, cbr, ebr, RolloutDecision.useExperimental, mhr⟩).2 = ebr.effects := by
  refine ⟨?_, ?_, ?_, ?_⟩
  · simp [Experiment.run, instrument_control, measure_duration, compEffects,
      effectOf]
  · simp [Experiment.run, instrument_experimental, measure_duration,
      compEffects, effectOf]
  · rcases hc : cbr.value with errc | a <;>
      simp [Experiment.run_result, instrument_control, measure_duration,
        compEffects, effectOf, outcome, outcome_ok, outcome_error, hc]
  · rcases he : ebr.value with erre | b <;>
      simp [Experiment.run_result, instrument_experimental, measure_duration,
        compEffects, effectOf, outcome, outcome_ok, outcome_error, he]

/-- C10: In run_result with decision Use-Both-And-Compare, when both
computations fail, no mismatch event is emitted and the mismatch handler is
not invoked; only the two per-side outcome classification events occur, and
the returned failure is the control error regardless of the experimental
error. -/
theorem run_result_both_failures {A Err E : Type} [DecidableEq A]
    (name : String) (errc erre : Err) (cfx efx : List E)
    (mh : Mismatch (Except Err A) → Except Err A) :
    (Experiment.run_result ⟨name, ⟨.error errc, cfx⟩, ⟨.error erre, efx⟩,
        RolloutDecision.useExperimentalAndCompare, mh⟩).1 = .error errc ∧
    mismatchEvents (Experiment.run_result ⟨name, ⟨.error errc, cfx⟩,
        ⟨.error erre, efx⟩,
        RolloutDecision.useExperimentalAndCompare, mh⟩).2 = [] ∧
    handlerCalls (Experiment.run_result ⟨name, ⟨.error errc, cfx⟩,
        ⟨.error erre, efx⟩,
        RolloutDecision.useExperimentalAndCompare, mh⟩).2 = [] ∧
    outcomeEvents (Experiment.run_result ⟨name, ⟨.error errc, cfx⟩,
        ⟨.error erre, efx⟩,
        RolloutDecision.useExperimentalAndCompare, mh⟩).2 =
      [(name, "control", "error"), (name, "experimental", "error")] := by
  refine ⟨?_, ?_, ?_, ?_⟩ <;>
    simp [Experiment.run_result, instrument_control, instrument_experimental,
      measure_duration, handlerCalls, handlerCallOf, mismatchEvents,
      mismatchOf, outcomeEvents, outcomeOf, outcome, outcome_ok,
      outcome_error, outcome_mismatch]

/-- C9: The experiment name never influences the value returned to the
caller: two configurations identical except for their name return equal
results from run and from run_result. -/
theorem name_does_not_influence_result {T A Err E : Type} [DecidableEq T]
    [DecidableEq A] (ex : Experiment T E) (exR : Experiment (Except Err A) E)
    (n₁ n₂ : String) :
    (Experiment.run { ex with name := n₁ }).1 =
      (Experiment.run { ex with name := n₂ }).1 ∧
    (Experiment.run_result { exR with name := n₁ }).1 =
      (Experiment.run_result { exR with name := n₂ }).1 := by
  constructor
  · rcases ex with ⟨nm, cb, eb, rs, mh⟩
    cases rs <;>
      simp [Experiment.run, instrument_control, instrument_experimental,
        measure_duration, apply_ite] <;>
      (try (split_ifs with h <;> simp [h]))
  · rcases exR with ⟨nm, cb, eb, rs, mh⟩
    rcases hc : cb.value with errc | a <;> rcases he : eb.value with erre | b <;>
      cases rs <;>
        simp [Experiment.run_result, instrument_control, instrument_experimental,
          measure_duration, hc, he, apply_ite] <;>
        (try (split_ifs with h <;> simp [h]))

/-- C7: For every execution (run or run_result) the rollout strategy is
queried exactly once, right after the invocation counter and before either
computation starts, and the resulting decision is one of exactly three
variants. -/
theorem decision_queried_once {T A Err E : Type} [DecidableEq T]
    [DecidableEq A] (ex : Experiment T E) (exR : Experiment (Except Err A) E) :
    (∀ d : RolloutDecision, d = RolloutDecision.useControl ∨
      d = RolloutDecision.useExperimentalAndCompare ∨
      d = RolloutDecision.useExperimental) ∧
    startsWithQuery ex.name ex.rollout_strategy (Experiment.run ex).2 ∧
    queryEvents (Experiment.run ex).2 = [ex.rollout_strategy] ∧
    startsWithQuery exR.name exR.rollout_strategy (Experiment.run_result exR).2 ∧
    queryEvents (Experiment.run_result exR).2 = [exR.rollout_strategy] := by
  refine ⟨fun d => by cases d <;> simp, ?_, ?_, ?_, ?_⟩
  · rcases ex with ⟨nm, cb, eb, rs, mh⟩
    cases rs <;>
      by_cases h : cb.value = eb.value <;>
        simp [Experiment.run, instrument_control, instrument_experimental,
          measure_duration, startsWithQuery, queryEvents, queryOf,
          outcome_mismatch, h]
  · rcases ex with ⟨nm, cb, eb, rs, mh⟩
    cases rs <;>
      by_cases h : cb.value = eb.value <;>
        simp [Experiment.run, instrument_control, instrument_experimental,
          measure_duration, queryEvents, queryOf, outcome_mismatch, h]
  · rcases exR with ⟨nm, cb, eb, rs, mh⟩
    rcases hc : cb.value with errc | a <;> rcases he : eb.value with erre | b <;>
      cases rs <;>
        simp [Experiment.run_result, instrument_control, instrument_experimental,
          measure_duration, startsWithQuery, queryEvents, queryOf, outcome,
          outcome_ok, outcome_error, outcome_mismatch, hc, he,
          -List.filterMap_eq_nil_iff] <;>
        (try (split_ifs with h <;>
          simp [queryEvents, queryOf, -List.filterMap_eq_nil_iff]))
  · rcases exR with ⟨nm, cb, eb, rs, mh⟩
    rcases hc : cb.value with errc | a <;> rcases he : eb.value with erre | b <;>
      cases rs <;>
        simp [Experiment.run_result, instrument_control, instrument_experimental,
          measure_duration, queryEvents, queryOf, outcome, outcome_ok,
          outcome_error, outcome_mismatch, hc, he,
          -List.filterMap_eq_nil_iff] <;>
        (try (split_ifs with h <;>
          simp [queryEvents, queryOf, -List.filterMap_eq_nil_iff]))

/-- C8 as amended: for every invocation of run or run_result exactly one
variant-selected count event is emitted, tagged with the experiment name
and the decision's kind, where the kind tag string is one of "control",
"experimental", or "experimental_and_compare" corresponding to the decision
taken (the source emits "experimental_and_compare", not "both-and-compare",
for the compare decision). -/
theorem variant_event_emitted_once {T A Err E : Type} [DecidableEq T]
    [DecidableEq A] (ex : Experiment T E) (exR : Experiment (Except Err A) E) :
    variantEvents (Experiment.run ex).2 =
      [(ex.name, ex.rollout_strategy.kindLabel)] ∧
    variantEvents (Experiment.run_result exR).2 =
      [(exR.name, exR.rollout_strategy.kindLabel)] ∧
    (∀ d : RolloutDecision, d.kindLabel = "control" ∨
      d.kindLabel = "experimental" ∨ d.kindLabel = "experimental_and_compare") := by
  refine ⟨?_, ?_, fun d => by cases d <;> simp [RolloutDecision.kindLabel]⟩
  · rcases ex with ⟨nm, cb, eb, rs, mh⟩
    cases rs <;>
      by_cases h : cb.value = eb.value <;>
        simp [Experiment.run, instrument_control, instrument_experimental,
          measure_duration, variantEvents, variantOf, outcome_mismatch,
          RolloutDecision.kindLabel, h]
  · rcases exR with ⟨nm, cb, eb, rs, mh⟩
    rcases hc : cb.value with errc | a <;> rcases he : eb.value with erre | b <;>
      cases rs <;>
        simp [Experiment.run_result, instrument_control, instrument_experimental,
          measure_duration, variantEvents, variantOf, outcome, outcome_ok,
          outcome_error, outcome_mismatch, RolloutDecision.kindLabel, hc, he] <;>
        (try (split_ifs with h <;> simp [variantEvents, variantOf]))

/-- C8 counterexample: at a concrete Use-Both-And-Compare invocation the
variant-selected event's kind tag is the string "experimental_and_compare";
no event tagged "both-and-compare" is emitted, contradicting the claim's
list of kind tag strings. -/
theorem variant_kind_tag_cex :
    variantEvents (Experiment.run (⟨"test", ⟨true, []⟩, ⟨false, []⟩,
        RolloutDecision.useExperimentalAndCompare, fun m => m.control⟩ :
        Experiment Bool Unit)).2 = [("test", "experimental_and_compare")] ∧
    ("test", "both-and-compare") ∉ variantEvents (Experiment.run
        (⟨"test", ⟨true, []⟩, ⟨false, []⟩,
        RolloutDecision.useExperimentalAndCompare, fun m => m.control⟩ :
        Experiment Bool Unit)).2 := by
  constructor <;> decide

/-- C3 as amended: across run and run_result the mismatch handler is invoked
exactly once when the decision is Use-Both-And-Compare and the outputs
disagree — in plain mode when the two values are unequal, in fallible mode
when both sides succeed with unequal values or the control fails while the
experimental succeeds — receiving both observed outcomes, with its return
value the final result; it is never invoked in any other situation (in
particular not when the control succeeds and the experimental fails). -/
theorem policy_invoked_exactly_when_needed {T A Err E : Type} [DecidableEq T]
    [DecidableEq A] (ex : Experiment T E) (exR : Experiment (Except Err A) E) :
    handlerCalls (Experiment.run ex).2 =
      (if ex.rollout_strategy = RolloutDecision.useExperimentalAndCompare ∧
          ex.control_builder.value ≠ ex.experimental_builder.value
        then [⟨ex.control_builder.value, ex.experimental_builder.value⟩]
        else []) ∧
    (∀ m ∈ handlerCalls (Experiment.run ex).2,
      (Experiment.run ex).1 = ex.mismatch_handler m) ∧
    handlerCalls (Experiment.run_result exR).2 =
      (if exR.rollout_strategy = RolloutDecision.useExperimentalAndCompare ∧
          needsReconciliation exR.control_builder.value
            exR.experimental_builder.value = true
        then [⟨exR.control_builder.value, exR.experimental_builder.value⟩]
        else []) ∧
    (∀ m ∈ handlerCalls (Experiment.run_result exR).2,
      (Experiment.run_result exR).1 = exR.mismatch_handler m) := by
  refine ⟨?_, ?_, ?_, ?_⟩
  · rcases ex with ⟨nm, cb, eb, rs, mh⟩
    cases rs <;>
      by_cases h : cb.value = eb.value <;>
        simp [Experiment.run, instrument_control, instrument_experimental,
          measure_duration, handlerCalls, handlerCallOf, outcome_mismatch, h]
  · rcases ex with ⟨nm, cb, eb, rs, mh⟩
    cases rs <;>
      by_cases h : cb.value = eb.value <;>
        simp [Experiment.run, instrument_control, instrument_experimental,
          measure_duration, handlerCalls, handlerCallOf, outcome_mismatch, h]
  · rcases exR with ⟨nm, cb, eb, rs, mh⟩
    rcases hc : cb.value with errc | a <;> rcases he : eb.value with erre | b <;>
      cases rs <;>
        simp [Experiment.run_result, instrument_control, instrument_experimental,
          measure_duration, handlerCalls, handlerCallOf, needsReconciliation,
          outcome, outcome_ok, outcome_error, outcome_mismatch, hc, he,
          -List.filterMap_eq_nil_iff] <;>
        (try (split_ifs with hab <;>
          simp_all [handlerCallOf, -List.filterMap_eq_nil_iff]))
  · rcases exR with ⟨nm, cb, eb, rs, mh⟩
    rcases hc : cb.value with errc | a <;> rcases he : eb.value with erre | b <;>
      cases rs <;>
        simp [Experiment.run_result, instrument_control, instrument_experimental,
          measure_duration, handlerCalls, handlerCallOf, needsReconciliation,
          outcome, outcome_ok, outcome_error, outcome_mismatch, hc, he,
          -List.filterMap_eq_nil_iff] <;>
        (try (split_ifs with hab)) <;>
        (try (intro m ev hev hsome; rcases ev <;> simp_all))

/-- C3 counterexample: a Use-Both-And-Compare run_result invocation where
the control succeeds and the experimental fails — one path failed while the
other did not, yet the mismatch handler is never invoked and the control
success is returned, contradicting the claim that the policy is invoked
whenever one path failed while the other did not. -/
theorem policy_skipped_on_experimental_failure_cex :
    handlerCalls (Experiment.run_result (⟨"test", ⟨Except.ok true, []⟩,
        ⟨Except.error "failed", []⟩,
        RolloutDecision.useExperimentalAndCompare, fun m => m.control⟩ :
        Experiment (Except String Bool) Unit)).2 = [] ∧
    (Experiment.run_result (⟨"test", ⟨Except.ok true, []⟩,
        ⟨Except.error "failed", []⟩,
        RolloutDecision.useExperimentalAndCompare, fun m => m.control⟩ :
        Experiment (Except String Bool) Unit)).1 = Except.ok true := by
  constructor <;> decide

/-- How the three presence flags of the type-state builder evolve under one
builder call. -/
theorem flags_applyCall {T E : Type} (p : PackedBuilder T E)
    (c : BuilderCall T E) :
    flags (applyCall p c) =
      ((flags p).1 || c.isControl, (flags p).2.1 || c.isExperimental,
        (flags p).2.2 || c.isRollout) := by
  rcases p with ⟨hc, he, hr, b⟩
  cases c <;>
    simp [applyCall, flags, BuilderCall.isControl, BuilderCall.isExperimental,
      BuilderCall.isRollout]

/-- The presence flags after a chain of builder calls. -/
theorem flags_applyCalls {T E : Type} (p : PackedBuilder T E)
    (calls : List (BuilderCall T E)) :
    flags (applyCalls p calls) =
      ((flags p).1 || calls.any BuilderCall.isControl,
        (flags p).2.1 || calls.any BuilderCall.isExperimental,
        (flags p).2.2 || calls.any BuilderCall.isRollout) := by
  induction calls generalizing p with
  | nil => simp [applyCalls]
  | cons c rest ih =>
      have h1 : applyCalls p (c :: rest) = applyCalls (applyCall p c) rest := rfl
      rw [h1, ih, flags_applyCall]
      simp [Bool.or_assoc]

/-- C5: An Experiment cannot be executed until a control computation, an
experimental computation and a rollout strategy have all been registered:
the builder's type indices record which of the three are present,
Experiment.new starts with none present, and a chain of builder calls
reaches the fully-present type — the only one ExperimentBuilder.toExperiment
(and hence run / run_result, which are defined on Experiment alone) accepts
— exactly when the chain registers a control, an experimental and a rollout
strategy. -/
theorem run_requires_complete_configuration (T E : Type) (name : String)
    (calls : List (BuilderCall T E)) :
    flags (applyCalls (packed_new T E name) calls) =
      (calls.any BuilderCall.isControl, calls.any BuilderCall.isExperimental,
        calls.any BuilderCall.isRollout) := by
  rw [flags_applyCalls]
  simp [packed_new, flags]

/-- C6: A newly constructed Experiment carries the AlwaysControl default
mismatch handler, which always returns the control side of a mismatch; with
no handler registered, a Use-Both-And-Compare execution returns the control
value in every case, for run and for run_result. -/
theorem default_policy_trusts_control {T A Err E : Type} [DecidableEq T]
    [DecidableEq A] (name : String) (cb eb : Computation T E)
    (cbr ebr : Computation (Except Err A) E) :
    (∀ m : Mismatch T, AlwaysControl m = m.control) ∧
    (ExperimentBuilder.new T E name).handler = AlwaysControl ∧
    (Experiment.run (ExperimentBuilder.toExperiment
        ((((ExperimentBuilder.new T E name).control cb).experimental
          eb).rollout_strategy RolloutDecision.useExperimentalAndCompare))).1 =
      cb.value ∧
    (Experiment.run_result (ExperimentBuilder.toExperiment
        ((((ExperimentBuilder.new (Except Err A) E name).control
          cbr).experimental ebr).rollout_strategy
          RolloutDecision.useExperimentalAndCompare))).1 = cbr.value := by
  refine ⟨fun m => rfl, rfl, ?_, ?_⟩
  · by_cases h : cb.value = eb.value <;>
      simp [ExperimentBuilder.new, ExperimentBuilder.control,
        ExperimentBuilder.experimental, ExperimentBuilder.rollout_strategy,
        ExperimentBuilder.toExperiment, Slot.get, Experiment.run,
        instrument_control, instrument_experimental, measure_duration,
        AlwaysControl, h]
  · rcases hc : cbr.value with errc | a <;> rcases he : ebr.value with erre | b <;>
      simp [ExperimentBuilder.new, ExperimentBuilder.control,
        ExperimentBuilder.experimental, ExperimentBuilder.rollout_strategy,
        ExperimentBuilder.toExperiment, Slot.get, Experiment.run_result,
        instrument_control, instrument_experimental, measure_duration,
        AlwaysControl, outcome, outcome_ok, outcome_error, outcome_mismatch,
        hc, he] <;>
      (try (split_ifs with hab <;> simp [hab]))

end Thesis
